import Mathlib

/-!
Verification of the tool-calling orchestration core of this repository.

Shallow embedding of:
  * `backend/agent.py`   — `FunctionCallAgent` (orchestration loop, capability
    registry, call-intent extraction from embedded JSON);
  * `backend/vllm_client.py` — `VLLMClient.chat` (inference gateway);
  * `backend/app.py`     — the structured `tool_calls` dispatch of the
    `/api/chat` handler.

Python values produced by `json.loads` are modelled by the inductive `Json`
below; machine floats never occur in any claim, so JSON numbers are
restricted to integers (the parser rejects fractional/exponent literals).
-/

namespace Spec2Proof

/-- JSON values as produced by Python's `json.loads` on the inputs this
program handles.  Object fields are kept in parse order; lookup takes the
last binding of a key, matching Python dict construction from duplicate
keys. -/
inductive Json where
  | null
  | bool (b : Bool)
  | num (n : Int)
  | str (s : String)
  | arr (elems : List Json)
  | obj (fields : List (String × Json))

mutual

def decJson (a b : Json) : Decidable (a = b) := by
  cases a <;> cases b <;>
    try { apply isFalse; intro h; injection h }
  case null.null => exact isTrue rfl
  case bool.bool x y | num.num x y | str.str x y =>
    exact match decEq x y with
    | isTrue h => isTrue (by rw [h])
    | isFalse h => isFalse (by intro h2; injection h2; contradiction)
  case arr.arr xs ys =>
    exact match decJsonList xs ys with
    | isTrue h => isTrue (by rw [h])
    | isFalse h => isFalse (by intro h2; injection h2; contradiction)
  case obj.obj fs gs =>
    exact match decJsonFields fs gs with
    | isTrue h => isTrue (by rw [h])
    | isFalse h => isFalse (by intro h2; injection h2; contradiction)

def decJsonList (xs ys : List Json) : Decidable (xs = ys) :=
  match xs, ys with
  | [], [] => isTrue rfl
  | _ :: _, [] | [], _ :: _ => isFalse (by intro h; exact absurd h (by simp))
  | x :: xs, y :: ys =>
    match decJson x y, decJsonList xs ys with
    | isTrue h1, isTrue h2 => isTrue (by rw [h1, h2])
    | isFalse h1, _ => isFalse (by intro h; injection h; contradiction)
    | _, isFalse h2 => isFalse (by intro h; injection h; contradiction)

def decJsonFields (fs gs : List (String × Json)) : Decidable (fs = gs) :=
  match fs, gs with
  | [], [] => isTrue rfl
  | _ :: _, [] | [], _ :: _ => isFalse (by intro h; exact absurd h (by simp))
  | (k1, v1) :: fs, (k2, v2) :: gs =>
    match decEq k1 k2, decJson v1 v2, decJsonFields fs gs with
    | isTrue h1, isTrue h2, isTrue h3 => isTrue (by rw [h1, h2, h3])
    | isFalse h1, _, _ =>
      isFalse (by intro h; injection h with hp _; injection hp; contradiction)
    | _, isFalse h2, _ =>
      isFalse (by intro h; injection h with hp _; injection hp; contradiction)
    | _, _, isFalse h3 => isFalse (by intro h; injection h; contradiction)

end

instance : DecidableEq Json := decJson

/-- JSON document whitespace accepted by `json.loads`. -/
def isJsonWs (c : Char) : Bool :=
  c = ' ' || c = '\t' || c = '\n' || c = '\r'

/-- Drop leading JSON whitespace. -/
def skipWs : List Char → List Char
  | [] => []
  | c :: cs => if isJsonWs c then skipWs cs else c :: cs

/-- Value of a hexadecimal digit. -/
def hexVal (c : Char) : Option Nat :=
  if '0' ≤ c ∧ c ≤ '9' then some (c.toNat - '0'.toNat)
  else if 'a' ≤ c ∧ c ≤ 'f' then some (c.toNat - 'a'.toNat + 10)
  else if 'A' ≤ c ∧ c ≤ 'F' then some (c.toNat - 'A'.toNat + 10)
  else none

/-- Value of a decimal digit. -/
def digitVal (c : Char) : Option Nat :=
  if '0' ≤ c ∧ c ≤ '9' then some (c.toNat - '0'.toNat) else none

/-- Body of a JSON string literal, after the opening quote.  Handles the
standard escapes; `\uXXXX` decodes a single code unit (surrogate-pair
recombination is not modelled — no claim exercises it). -/
def parseStringBody : Nat → List Char → List Char → Option (String × List Char)
  | 0, _, _ => none
  | _ + 1, [], _ => none
  | f + 1, c :: rest, acc =>
    if c = '"' then some (String.mk acc.reverse, rest)
    else if c = '\\' then
      match rest with
      | [] => none
      | e :: rest2 =>
        if e = '"' then parseStringBody f rest2 ('"' :: acc)
        else if e = '\\' then parseStringBody f rest2 ('\\' :: acc)
        else if e = '/' then parseStringBody f rest2 ('/' :: acc)
        else if e = 'b' then parseStringBody f rest2 ('\x08' :: acc)
        else if e = 'f' then parseStringBody f rest2 ('\x0c' :: acc)
        else if e = 'n' then parseStringBody f rest2 ('\n' :: acc)
        else if e = 'r' then parseStringBody f rest2 ('\x0d' :: acc)
        else if e = 't' then parseStringBody f rest2 ('\t' :: acc)
        else if e = 'u' then
          match rest2 with
          | a :: b :: c2 :: d :: rest3 =>
            match hexVal a, hexVal b, hexVal c2, hexVal d with
            | some ha, some hb, some hc, some hd =>
              parseStringBody f rest3
                (Char.ofNat (((ha * 16 + hb) * 16 + hc) * 16 + hd) :: acc)
            | _, _, _, _ => none
          | _ => none
        else none
    else if c.toNat < 0x20 then none
    else parseStringBody f rest (c :: acc)

/-- Leading decimal digits of a character list. -/
def takeDigits : List Char → List Nat × List Char
  | [] => ([], [])
  | c :: cs =>
    match digitVal c with
    | some d => let (ds, rest) := takeDigits cs; (d :: ds, rest)
    | none => ([], c :: cs)

/-- JSON integer literal (sign and digits; a following `.`, `e` or `E`
marks a float literal, which the embedding rejects — see module header). -/
def parseIntLit (cs : List Char) : Option (Int × List Char) :=
  let (neg, cs2) := match cs with
    | '-' :: rest => (true, rest)
    | _ => (false, cs)
  match takeDigits cs2 with
  | ([], _) => none
  | (d :: ds, rest) =>
    if d = 0 ∧ ds ≠ [] then none
    else
      match rest with
      | r :: _ =>
        if r = '.' ∨ r = 'e' ∨ r = 'E' then none
        else
          let n : Nat := (d :: ds).foldl (fun a b => a * 10 + b) 0
          some (if neg then -(n : Int) else (n : Int), rest)
      | [] =>
        let n : Nat := (d :: ds).foldl (fun a b => a * 10 + b) 0
        some (if neg then -(n : Int) else (n : Int), [])

mutual

/-- Recursive-descent JSON value parser (fuel-indexed; `loads` supplies
enough fuel for any input). -/
def parseValue : Nat → List Char → Option (Json × List Char)
  | 0, _ => none
  | f + 1, cs =>
    match skipWs cs with
    | [] => none
    | c :: rest =>
      if c = '{' then
        match skipWs rest with
        | '}' :: rest2 => some (.obj [], rest2)
        | cs2 => parseMembers f cs2 []
      else if c = '[' then
        match skipWs rest with
        | ']' :: rest2 => some (.arr [], rest2)
        | cs2 => parseElems f cs2 []
      else if c = '"' then
        match parseStringBody (rest.length + 1) rest [] with
        | some (s, rest2) => some (.str s, rest2)
        | none => none
      else if c = 't' then
        match rest with
        | 'r' :: 'u' :: 'e' :: rest2 => some (.bool true, rest2)
        | _ => none
      else if c = 'f' then
        match rest with
        | 'a' :: 'l' :: 's' :: 'e' :: rest2 => some (.bool false, rest2)
        | _ => none
      else if c = 'n' then
        match rest with
        | 'u' :: 'l' :: 'l' :: rest2 => some (.null, rest2)
        | _ => none
      else
        match parseIntLit (c :: rest) with
        | some (n, rest2) => some (.num n, rest2)
        | none => none

/-- Members of an object, positioned at a key (not at `{` or `}`). -/
def parseMembers : Nat → List Char → List (String × Json) →
    Option (Json × List Char)
  | 0, _, _ => none
  | f + 1, cs, acc =>
    match cs with
    | '"' :: rest =>
      match parseStringBody (rest.length + 1) rest [] with
      | some (k, rest2) =>
        match skipWs rest2 with
        | ':' :: rest3 =>
          match parseValue f rest3 with
          | some (v, rest4) =>
            match skipWs rest4 with
            | ',' :: rest5 => parseMembers f (skipWs rest5) (acc ++ [(k, v)])
            | '}' :: rest5 => some (.obj (acc ++ [(k, v)]), rest5)
            | _ => none
          | none => none
        | _ => none
      | none => none
    | _ => none

/-- Elements of an array, positioned at a value (not at `[` or `]`). -/
def parseElems : Nat → List Char → List Json → Option (Json × List Char)
  | 0, _, _ => none
  | f + 1, cs, acc =>
    match parseValue f cs with
    | some (v, rest) =>
      match skipWs rest with
      | ',' :: rest2 => parseElems f rest2 (acc ++ [v])
      | ']' :: rest2 => some (.arr (acc ++ [v]), rest2)
      | _ => none
    | none => none

end

/-- Python `json.loads`: parse a complete document; trailing non-whitespace
data is an error (returns `none`, standing for a raised `JSONDecodeError`). -/
def loads (s : String) : Option Json :=
  match parseValue (s.data.length + 1) s.data with
  | some (v, rest) => if (skipWs rest).isEmpty then some v else none
  | none => none

/-- Lookup in a JSON object: last binding of the key wins, as in a Python
dict built from duplicate keys. -/
def lookupLast (fields : List (String × Json)) (k : String) : Option Json :=
  match fields with
  | [] => none
  | (k2, v) :: rest =>
    match lookupLast rest k with
    | some r => some r
    | none => if k2 = k then some v else none

/-- Python substring membership `needle in hay` on lists of characters. -/
def containsSub (hay needle : List Char) : Bool :=
  if needle.isPrefixOf hay then true
  else
    match hay with
    | [] => false
    | _ :: rest => containsSub rest needle

/-- Python substring membership `needle in hay` on strings. -/
def strContains (hay needle : String) : Bool :=
  containsSub hay.data needle.data

/-- Split `hay` at the first occurrence of `needle`: the part before it and
the part after it.  `none` when `needle` does not occur (Python
`str.find` returning -1). -/
def splitFirst (hay needle : List Char) : Option (List Char × List Char) :=
  if needle.isPrefixOf hay then some ([], hay.drop needle.length)
  else
    match hay with
    | [] => none
    | c :: rest => (splitFirst rest needle).map (fun p => (c :: p.1, p.2))

/-- Whitespace removed by Python `str.strip()` (ASCII fragment). -/
def isPyWs (c : Char) : Bool :=
  c = ' ' || c = '\t' || c = '\n' || c = '\x0d' || c = '\x0b' || c = '\x0c'

/-- Python `str.strip()`. -/
def pyStrip (s : String) : String :=
  String.mk (((s.data.dropWhile isPyWs).reverse.dropWhile isPyWs).reverse)

/-- Python truthiness of a `json.loads` value (`if tool_call:`). -/
def Json.truthy : Json → Bool
  | .null => false
  | .bool b => b
  | .num n => n ≠ 0
  | .str s => s ≠ ""
  | .arr xs => !xs.isEmpty
  | .obj fs => !fs.isEmpty

/-- Escape one character the way Python `repr` renders it inside a string
quoted with `q` (ASCII fragment; printable non-ASCII is kept as-is). -/
def reprEscapeChar (q c : Char) : String :=
  if c = '\\' then "\\\\"
  else if c = q then String.mk ['\\', q]
  else if c = '\n' then "\\n"
  else if c = '\x0d' then "\\r"
  else if c = '\t' then "\\t"
  else if c.toNat < 32 ∨ c.toNat = 127 then
    let hexDigit (n : Nat) : Char := if n < 10 then Char.ofNat (48 + n) else Char.ofNat (87 + n)
    String.mk ['\\', 'x', hexDigit (c.toNat / 16), hexDigit (c.toNat % 16)]
  else String.mk [c]

/-- Python `repr` of a str: single quotes, switching to double quotes when
the string contains a single quote but no double quote. -/
def pyReprStr (s : String) : String :=
  let q : Char :=
    if s.data.contains (Char.ofNat 39) ∧ ¬ s.data.contains (Char.ofNat 34)
    then Char.ofNat 34 else Char.ofNat 39
  String.mk [q] ++ String.join (s.data.map (reprEscapeChar q)) ++ String.mk [q]

mutual

/-- Python `repr` of a `json.loads` value (what an f-string renders for a
dict or list). -/
def pyRepr : Json → String
  | .null => "None"
  | .bool true => "True"
  | .bool false => "False"
  | .num n => toString n
  | .str s => pyReprStr s
  | .arr xs => "[" ++ pyReprList xs ++ "]"
  | .obj fs => "\x7b" ++ pyReprFields fs ++ "\x7d"

def pyReprList : List Json → String
  | [] => ""
  | [x] => pyRepr x
  | x :: xs => pyRepr x ++ ", " ++ pyReprList xs

def pyReprFields : List (String × Json) → String
  | [] => ""
  | [(k, v)] => pyReprStr k ++ ": " ++ pyRepr v
  | (k, v) :: fs => pyReprStr k ++ ": " ++ pyRepr v ++ ", " ++ pyReprFields fs

end

/-- Python `str()` of a `json.loads` value (what an f-string interpolates). -/
def pyStr : Json → String
  | .str s => s
  | j => pyRepr j

/-! ## backend/agent.py — `FunctionCallAgent` -/

/-- `ToolType` (agent.py lines 22-26). -/
inductive ToolType where
  | function
  | mcp_tool
  | system
deriving DecidableEq

/-- `Tool` (agent.py lines 39-48).  The handler takes the decoded keyword
arguments (a JSON object) and either returns a value or raises (`Except`).
The `asyncio.iscoroutinefunction` split (lines 189-192) calls the same
handler either way and is not distinguished. -/
structure Tool where
  name : String
  description : String
  parameters : Json := .obj []
  function : Option (Json → Except String Json) := none
  tool_type : ToolType := .function

/-- `ToolResult` (agent.py lines 29-36).  `result := none` is Python
`None`; `execution_time` is wall-clock instrumentation and not modelled. -/
structure ToolResult where
  success : Bool
  result : Option Json
  error : Option String := none
  tool_name : String := ""

/-- `self.tools` is a `Dict[str, Tool]`: insertion-ordered, unique keys.
Modelled as an association list; `registryLookup` is dict indexing. -/
def registryLookup (tools : List (String × Tool)) (name : String) : Option Tool :=
  (tools.find? (fun p => p.1 = name)).map (fun p => p.2)

/-- `FunctionCallAgent.add_tool` (lines 145-148): `self.tools[tool.name] = tool`
replaces in place or appends. -/
def add_tool (tools : List (String × Tool)) (t : Tool) : List (String × Tool) :=
  if tools.any (fun p => p.1 = t.name) then
    tools.map (fun p => if p.1 = t.name then (p.1, t) else p)
  else tools ++ [(t.name, t)]

/-- `FunctionCallAgent.remove_tool` (lines 150-154). -/
def remove_tool (tools : List (String × Tool)) (name : String) : List (String × Tool) :=
  tools.filter (fun p => p.1 ≠ name)

/-- `FunctionCallAgent.get_tools_schema` (lines 156-169). -/
def get_tools_schema (tools : List (String × Tool)) : List Json :=
  tools.map (fun p =>
    .obj [("type", .str "function"),
          ("function", .obj [("name", .str p.2.name),
                             ("description", .str p.2.description),
                             ("parameters", p.2.parameters)])])

/-- `FunctionCallAgent.execute_tool` (agent.py lines 171-211).

The membership test `tool_name not in self.tools` (line 176) raises
`TypeError` when the name is unhashable (a JSON array or object); that
raise happens before the handler-guarding `try` and propagates to the
caller — hence the `Except` result.  Every other path returns a
`ToolResult`: an absent name yields the "not found" failure; a registered
tool with no handler yields the success placeholder (line 194); a handler
call with non-dict `parameters` raises `TypeError` at `**parameters`
inside the `try` and is caught (line 203), as is any handler raise.
The carried error strings for runtime `TypeError`s are representative
(their exact Python wording is interpreter detail no claim depends on). -/
def execute_tool (tools : List (String × Tool)) (tool_name : Json) (parameters : Json) :
    Except String ToolResult :=
  match tool_name with
  | .arr _ => .error "unhashable type: list"
  | .obj _ => .error "unhashable type: dict"
  | _ =>
    let keyMatch := match tool_name with
      | .str s => registryLookup tools s
      | _ => none
    match keyMatch with
    | none =>
      .ok { success := false, result := none,
            error := some ("도구 \x27" ++ pyStr tool_name ++ "\x27를 찾을 수 없습니다."),
            tool_name := pyStr tool_name }
    | some tool =>
      match tool.function with
      | none =>
        .ok { success := true,
              result := some (.str ("도구 \x27" ++ pyStr tool_name ++ "\x27 실행됨 (파라미터: "
                ++ pyRepr parameters ++ ")")),
              error := none, tool_name := pyStr tool_name }
      | some f =>
        match parameters with
        | .obj _ =>
          match f parameters with
          | .ok v =>
            .ok { success := true, result := some v, error := none, tool_name := pyStr tool_name }
          | .error e =>
            .ok { success := false, result := none, error := some e, tool_name := pyStr tool_name }
        | _ =>
          .ok { success := false, result := none,
                error := some "argument after ** must be a mapping",
                tool_name := pyStr tool_name }

/-- Python `key in parsed` followed by `parsed[key]` on a `json.loads`
value: `.ok (some v)` extracts the value from a dict, `.ok none` is a
failed membership test (fall through), `.error ()` a raised `TypeError`
(substring membership on a str and element membership on a list succeed
but the subsequent indexing with a string raises; membership itself raises
on numbers, booleans and `None`). -/
def getKeyPy (parsed : Json) (key : String) : Except Unit (Option Json) :=
  match parsed with
  | .obj fs => .ok (lookupLast fs key)
  | .str s => if strContains s key then .error () else .ok none
  | .arr xs => if xs.any (fun x => x = .str key) then .error () else .ok none
  | _ => .error ()

/-- Outcome of the fenced-block stage of `_parse_tool_call`. -/
inductive StageResult where
  | hit (v : Json)
  | fallthrough
  | raised
deriving DecidableEq

/-- The body the fenced-block stage hands to `json.loads` (lines 217-221):
the text between the first occurrence of "```json" (plus 7) and the next
"```", stripped.  `none` when the opening marker is absent or no closing
marker follows — both fall through to the direct parse. -/
def fencedBody (content : String) : Option String :=
  match splitFirst content.data "```json".data with
  | none => none
  | some (_, rest) =>
    match splitFirst rest "```".data with
    | none => none
    | some (body, _) => some (pyStrip (String.mk body))

/-- Fenced-block stage of `_parse_tool_call` (lines 216-224).  A
`json.loads` failure on the block body, or a `TypeError` from the
membership/indexing, raises inside the OUTER `try` of `_parse_tool_call`
and is caught at line 236, so `.raised` makes the whole extractor return
`None` without attempting the direct parse. -/
def stage1 (content : String) : StageResult :=
  match fencedBody content with
  | none => .fallthrough
  | some body =>
    match loads body with
    | none => .raised
    | some parsed =>
      match getKeyPy parsed "tool_call" with
      | .error _ => .raised
      | .ok (some v) => .hit v
      | .ok none => .fallthrough

/-- Direct-parse stage of `_parse_tool_call` (lines 226-232): the whole
content is parsed; any raise is swallowed by the inner `except: pass`, so
this stage yields a value or nothing, never an error. -/
def stage2 (content : String) : Option Json :=
  match loads content with
  | none => none
  | some parsed =>
    match getKeyPy parsed "tool_call" with
    | .error _ => none
    | .ok (some v) => some v
    | .ok none => none

/-- `FunctionCallAgent._parse_tool_call` (agent.py lines 213-238): the
fenced-block stage, then — only when it falls through — the direct parse.
Total by construction: every Python raise inside is caught (lines 231 and
236) and converted to `None`. -/
def parse_tool_call (content : String) : Option Json :=
  match stage1 content with
  | .hit v => some v
  | .raised => none
  | .fallthrough => stage2 content

/-- Outcome of the dispatch at agent.py line 273. -/
inductive CallDecision where
  | invoke (name : Json) (params : Json)
  | finalAnswer
  | raised (msg : String)

/-- The dispatch `if tool_call and "name" in tool_call:` plus the
extraction of `tool_call["name"]` and `tool_call.get("parameters", {})`
(agent.py lines 273-276).  A falsy or `None` value, or a dict without the
key, falls to the final-answer branch; a truthy non-dict either fails the
membership test (final answer) or raises `TypeError` — membership on a
number or boolean, or indexing a str/list after a successful membership —
which the loop's `except` clause at line 299 turns into the apology
message. -/
def decideCall (tc : Option Json) : CallDecision :=
  match tc with
  | none => .finalAnswer
  | some j =>
    if ¬ j.truthy then .finalAnswer
    else
      match j with
      | .obj fs =>
        match lookupLast fs "name" with
        | some nv => .invoke nv ((lookupLast fs "parameters").getD (.obj []))
        | none => .finalAnswer
      | .str s => if strContains s "name" then .raised "TypeError" else .finalAnswer
      | .arr xs => if xs.any (fun x => x = .str "name") then .raised "TypeError" else .finalAnswer
      | _ => .raised "TypeError"

/-- A langchain `BaseMessage` in `self.conversation_history`.  `tool`
stands for any `BaseMessage` subtype other than System/Human/AI (such as a
`ToolMessage`): the serialization isinstance chains skip it.  The agent
code itself only ever appends the first three. -/
inductive Message where
  | system (content : String)
  | human (content : String)
  | ai (content : String)
  | tool (content : String)
deriving DecidableEq

/-- A wire-shape message `{"role": ..., "content": ...}`. -/
structure ApiMessage where
  role : String
  content : String
deriving DecidableEq

/-- The isinstance chain at agent.py lines 250-257, written identically at
lines 315-325 (`get_conversation_history`): System/Human/AI messages map
to the roles system/user/assistant; anything else is skipped. -/
def toApiMessages : List Message → List ApiMessage
  | [] => []
  | .system c :: rest => ⟨"system", c⟩ :: toApiMessages rest
  | .human c :: rest => ⟨"user", c⟩ :: toApiMessages rest
  | .ai c :: rest => ⟨"assistant", c⟩ :: toApiMessages rest
  | .tool _ :: rest => toApiMessages rest

/-- One call to `self.vllm_client.chat_completion` plus the extraction
`response["choices"][0]["message"]["content"]` (agent.py lines 261-268):
`.ok c` is a well-shaped reply with content `c`; `.error e` any exception
raised by the call or the shape extraction, with `e` its `str(e)`.  The
first argument is the number of loop iterations already performed, so a
stub gateway can vary its answer per call. -/
def Gateway : Type :=
  Nat → List ApiMessage → Option (List Json) → Except String String

/-- The mutable attributes of a `FunctionCallAgent`. -/
structure AgentState where
  tools : List (String × Tool) := []
  conversation_history : List Message
  max_iterations : Nat := 10
  system_prompt : String

/-- The default system prompt (agent.py lines 124-140), verbatim. -/
def default_system_prompt : String :=
  "\n당신은 도움이 되는 AI 어시스턴트입니다. 사용자의 질문에 답하고 요청된 작업을 수행하기 위해 제공된 도구들을 사용할 수 있습니다.\n\n도구를 사용할 때는 다음 형식을 따르세요:\n```json\n\x7b\n  \"tool_call\": \x7b\n    \"name\": \"도구_이름\",\n    \"parameters\": \x7b\n      \"매개변수명\": \"값\"\n    \x7d\n  \x7d\n\x7d\n```\n\n도구 사용이 완료되면 결과를 바탕으로 사용자에게 명확하고 도움이 되는 답변을 제공하세요.\n"

/-- `FunctionCallAgent.__init__` (agent.py lines 112-143).  `system_prompt
or default_system_prompt` uses truthiness: `None` and the empty string
both select the default. -/
def mkAgent (system_prompt : Option String := none) (max_iterations : Nat := 10) : AgentState :=
  let sp := match system_prompt with
    | some s => if s = "" then default_system_prompt else s
    | none => default_system_prompt
  { tools := [], conversation_history := [.system sp],
    max_iterations := max_iterations, system_prompt := sp }

/-- Fixed "too many steps" reply (agent.py line 306). -/
def timeout_message : String := "죄송합니다. 요청 처리에 너무 많은 단계가 필요합니다."

/-- Apology built at agent.py line 301 from `str(e)`. -/
def error_message (e : String) : String :=
  "죄송합니다. 처리 중 오류가 발생했습니다: " ++ e

/-- The capability-result text folded back into the transcript (agent.py
lines 284-287).  The f-strings interpolate `str()` of the stored result or
error (`None` when absent). -/
def result_message (tool_name : Json) (tr : ToolResult) : String :=
  if tr.success then
    "도구 \x27" ++ pyStr tool_name ++ "\x27 실행 결과: "
      ++ (match tr.result with | some v => pyStr v | none => "None")
  else
    "도구 \x27" ++ pyStr tool_name ++ "\x27 실행 실패: "
      ++ (match tr.error with | some e => e | none => "None")

/-- The tools argument of the gateway call at agent.py line 265:
`self.get_tools_schema() if self.tools else None` (an empty dict is
falsy). -/
def toolsArg (st : AgentState) : Option (List Json) :=
  if st.tools.isEmpty then none else some (get_tools_schema st.tools)

/-- The `while iterations < self.max_iterations` loop of
`FunctionCallAgent.chat` (agent.py lines 245-308).  `fuel` is the number
of remaining iterations (`max_iterations - iterations`); `iterations` the
number already performed.  Each iteration serializes the history, calls
the gateway (passing the tool schemas only when the registry is non-empty,
line 265 — an empty dict is falsy), extracts a call intent, and either
returns the final answer, converts a raise into the apology reply, or
executes the tool, appends the Assistant turn and the folded result turn,
and continues. -/
def chatLoop (gw : Gateway) : AgentState → Nat → Nat → String × AgentState
  | st, _, 0 =>
    (timeout_message,
     { st with conversation_history := st.conversation_history ++ [.ai timeout_message] })
  | st, iterations, fuel + 1 =>
    match gw iterations (toApiMessages st.conversation_history) (toolsArg st) with
    | .error e =>
      let em := error_message e
      (em, { st with conversation_history := st.conversation_history ++ [.ai em] })
    | .ok ai_message =>
      match decideCall (parse_tool_call ai_message) with
      | .raised e =>
        let em := error_message e
        (em, { st with conversation_history := st.conversation_history ++ [.ai em] })
      | .finalAnswer =>
        (ai_message,
         { st with conversation_history := st.conversation_history ++ [.ai ai_message] })
      | .invoke name params =>
        match execute_tool st.tools name params with
        | .error e =>
          let em := error_message e
          (em, { st with conversation_history := st.conversation_history ++ [.ai em] })
        | .ok tr =>
          let rm := result_message name tr
          chatLoop gw
            { st with conversation_history :=
                st.conversation_history ++ [.ai ai_message, .human rm] }
            (iterations + 1) fuel

/-- `FunctionCallAgent.chat` (agent.py lines 240-308): append the user
turn, then run the bounded loop. -/
def chat (gw : Gateway) (st : AgentState) (user_message : String) : String × AgentState :=
  chatLoop gw
    { st with conversation_history := st.conversation_history ++ [.human user_message] }
    0 st.max_iterations

/-- `FunctionCallAgent.clear_history` (agent.py lines 310-313). -/
def clear_history (st : AgentState) : AgentState :=
  { st with conversation_history := [.system st.system_prompt] }

/-- `FunctionCallAgent.get_conversation_history` (agent.py lines 315-325):
textually the same isinstance chain as the serialization at lines 250-257. -/
def get_conversation_history (st : AgentState) : List ApiMessage :=
  toApiMessages st.conversation_history

/-! ## backend/vllm_client.py — `VLLMClient.chat` -/

/-- An element of the `messages` argument of `VLLMClient.chat`; `content`
may be Python `None` (replaced by the empty string at lines 31-36). -/
structure InMessage where
  role : String
  content : Option String
deriving DecidableEq

/-- The content-`None` filtering at vllm_client.py lines 31-36. -/
def filterMessages (msgs : List InMessage) : List ApiMessage :=
  msgs.map (fun m => ⟨m.role, m.content.getD ""⟩)

/-- The JSON body POSTed to `/v1/chat/completions` (vllm_client.py lines
40-47).  `temperature`, a float forwarded verbatim from the constructor,
is outside the embedding; no claim depends on it. -/
structure ChatPayload where
  model : String
  messages : List ApiMessage
  max_tokens : Nat
  tools : Option (List Json) := none
  tool_choice : Option Json := none
deriving DecidableEq

/-- An outbound HTTP request issued by `VLLMClient.chat`: either the
chat-completions body or the flat completions body (lines 80-85). -/
inductive VRequest where
  | chatCompletions (payload : ChatPayload)
  | completions (model : String) (prompt_text : String) (max_tokens : Nat)
deriving DecidableEq

/-- How a POST can fail: `raise_for_status` raising `httpx.HTTPStatusError`
with the response's status and body, or a network-level
`httpx.RequestError`. -/
inductive HttpFailure where
  | statusError (status : Nat) (body : String)
  | requestError (msg : String)
deriving DecidableEq

/-- The inference endpoint: answers a request with parsed response JSON or
fails. -/
def Endpoint : Type := VRequest → Except HttpFailure Json

/-- How `VLLMClient.chat` can fail: re-raising the httpx exception as-is
(tools branch, line 63), wrapping it in a `RuntimeError` (completions
branch, lines 130-137), or letting a conversion-time exception escape
uncaught (the response-shape accesses at lines 99-121 sit inside a `try`
whose `except` clauses only match httpx errors). -/
inductive ChatError where
  | reraised (e : HttpFailure)
  | runtimeError (msg : String)
  | uncaught (msg : String)
deriving DecidableEq

/-- Role-annotated flattening of the transcript into a single prompt
(vllm_client.py lines 67-78); messages with any other role are skipped. -/
def promptPart (m : ApiMessage) : Option String :=
  if m.role = "system" then some ("System: " ++ m.content)
  else if m.role = "user" then some ("User: " ++ m.content)
  else if m.role = "assistant" then some ("Assistant: " ++ m.content)
  else none

/-- `"\n".join(prompt_parts) + "\nAssistant:"` (line 78). -/
def buildPrompt (ms : List ApiMessage) : String :=
  String.intercalate "\n" (ms.filterMap promptPart) ++ "\nAssistant:"

/-- Python `dict.get(k, default)` on JSON object fields. -/
def pyGet (fs : List (String × Json)) (k : String) (default : Json) : Json :=
  (lookupLast fs k).getD default

/-- The chat-completions-shaped response built from a completions response
(vllm_client.py lines 102-126).  `dataFields` are the fields of the parsed
response, `c0Fields` those of its first choice, `text` its "text" value. -/
def convertCompletions (clientModel : String) (dataFields c0Fields : List (String × Json))
    (text : String) : Json :=
  .obj [("id", pyGet dataFields "id" (.str "")),
        ("object", .str "chat.completion"),
        ("created", pyGet dataFields "created" (.num 0)),
        ("model", pyGet dataFields "model" (.str clientModel)),
        ("choices", .arr [.obj [
            ("index", .num 0),
            ("message", .obj [
                ("role", .str "assistant"),
                ("content", .str (pyStrip text)),
                ("refusal", .null),
                ("annotations", .null),
                ("audio", .null),
                ("function_call", .null),
                ("tool_calls", .arr []),
                ("reasoning_content", .str "")]),
            ("logprobs", pyGet c0Fields "logprobs" .null),
            ("finish_reason", pyGet c0Fields "finish_reason" .null),
            ("stop_reason", pyGet c0Fields "stop_reason" .null)]]),
        ("usage", pyGet dataFields "usage" (.obj [])),
        ("service_tier", pyGet dataFields "service_tier" .null),
        ("system_fingerprint", pyGet dataFields "system_fingerprint" .null)]

/-- The empty fallback response returned when the completions reply has no
usable `choices` (vllm_client.py lines 140-142). -/
def fallbackResponse : Json :=
  .obj [("choices", .arr [.obj [("message",
    .obj [("role", .str "assistant"), ("content", .str "응답을 생성할 수 없습니다.")])]])]

/-- The constructor state of `VLLMClient` (vllm_client.py lines 11-23)
that `chat` reads; `temperature` and `timeout` are forwarded verbatim and
not modelled. -/
structure VLLMClient where
  base_url : String
  model : String
  max_tokens : Nat := 1000

/-- `VLLMClient.chat` (vllm_client.py lines 25-142), parameterized by the
endpoint.  Also returns the list of requests the call issued, in order.

`if tools:` is a truthiness test: only a non-`None`, non-empty catalog
selects the chat-completions branch, and there any endpoint failure is
re-raised unchanged (lines 61-63).  Otherwise the transcript is flattened
and sent to `/v1/completions`; an httpx failure there is wrapped into a
`RuntimeError` (lines 130-137); a structurally unusable success reply
either falls through to `fallbackResponse` (empty `choices`) or raises
uncaught during conversion (non-dict choice, non-str `text`, ...).

`chatPayloadOf` is the chat-completions body built at lines 40-47:
`tool_choice if tool_choice is not None else "auto"`. -/
def chatPayloadOf (client : VLLMClient) (messages : List InMessage) (tools : List Json)
    (tool_choice : Option Json) : ChatPayload :=
  { model := client.model, messages := filterMessages messages,
    max_tokens := client.max_tokens, tools := some tools,
    tool_choice := some (tool_choice.getD (.str "auto")) }

def VLLMClient.chat (client : VLLMClient) (endpoint : Endpoint) (messages : List InMessage)
    (tools : Option (List Json) := none) (tool_choice : Option Json := none) :
    Except ChatError Json × List VRequest :=
  match tools with
  | some (t :: ts) =>
    let req := VRequest.chatCompletions (chatPayloadOf client messages (t :: ts) tool_choice)
    match endpoint req with
    | .ok data => (.ok data, [req])
    | .error e => (.error (.reraised e), [req])
  | _ =>
    let req := VRequest.completions client.model (buildPrompt (filterMessages messages))
      client.max_tokens
    match endpoint req with
    | .error (.statusError st body) =>
      (.error (.runtimeError ("vLLM server returned HTTP " ++ toString st ++ ": " ++ body)), [req])
    | .error (.requestError m) =>
      (.error (.runtimeError ("Failed to call vLLM server: " ++ m)), [req])
    | .ok data =>
      match getKeyPy data "choices" with
      | .error _ => (.error (.uncaught "TypeError"), [req])
      | .ok none => (.ok fallbackResponse, [req])
      | .ok (some ch) =>
        match ch with
        | .arr (c0 :: _) =>
          match c0, data with
          | .obj c0Fields, .obj dataFields =>
            match pyGet c0Fields "text" (.str "") with
            | .str text => (.ok (convertCompletions client.model dataFields c0Fields text), [req])
            | _ => (.error (.uncaught "AttributeError"), [req])
          | _, _ => (.error (.uncaught "AttributeError"), [req])
        | .arr [] => (.ok fallbackResponse, [req])
        | .str "" => (.ok fallbackResponse, [req])
        | .obj [] => (.ok fallbackResponse, [req])
        | _ => (.error (.uncaught "TypeError"), [req])

/-! ## backend/app.py — structured tool-call dispatch of `/api/chat` -/

/-- What the `/api/chat` handler does with the model message (app.py lines
176-238): enter the tool-execution branch carrying the structured list, or
return the free-text content, or raise (caught at line 239 as an HTTP 500). -/
inductive AppStep where
  | toolBranch (calls : List Json)
  | final (content : String)
  | raised
deriving DecidableEq

/-- The dispatch of the `/api/chat` handler on
`msg = response["choices"][0]["message"]` (app.py lines 176-238):
`if "tool_calls" in msg:` is a key-presence test; when the key is present
its value drives the `for call in msg["tool_calls"]` loop as-is and the
free-text `content` is never consulted, so no embedded-JSON parsing is
attempted.  Otherwise the handler returns `msg.get("content", "")`.
A present non-list `tool_calls` raises during iteration or per-item
processing (empty str/dict iterate zero items, like an empty list); a
present non-str `content` fails `ChatResponse` validation; a non-dict
`msg` raises at the first attribute/membership access. -/
def appChatDispatch (msg : Json) : AppStep :=
  match msg with
  | .obj fs =>
    match lookupLast fs "tool_calls" with
    | some tc =>
      match tc with
      | .arr calls => .toolBranch calls
      | .str "" => .toolBranch []
      | .obj [] => .toolBranch []
      | _ => .raised
    | none =>
      match lookupLast fs "content" with
      | none => .final ""
      | some (.str s) => .final s
      | some _ => .raised
  | _ => .raised

/-! ## Theorems for the claims -/

/-- C4: for every capability name not present in the registry and every
argument payload, `execute_tool` returns an outcome with `success = false`
and a "not found" error naming the capability; the result is returned
(`.ok`), never a propagated exception. -/
theorem execute_tool_unknown_returns_not_found
    (tools : List (String × Tool)) (name : String) (params : Json)
    (h : registryLookup tools name = none) :
    execute_tool tools (.str name) params =
      .ok { success := false, result := none,
            error := some ("도구 \x27" ++ name ++ "\x27를 찾을 수 없습니다."),
            tool_name := name } := by
  simp [execute_tool, h, pyStr]

/-- C4 witness: the not-found outcome at a concrete unknown name on the
empty registry. -/
theorem execute_tool_unknown_returns_not_found_witness :
    execute_tool [] (.str "missing") (.obj []) =
      .ok { success := false, result := none,
            error := some "도구 \x27missing\x27를 찾을 수 없습니다.",
            tool_name := "missing" } :=
  execute_tool_unknown_returns_not_found [] "missing" (.obj []) rfl

/-- C5: for every registered capability with a handler and every argument
mapping, a handler raise is caught and converted to `success = false`
carrying the exception's description, and a normal return yields
`success = true` carrying the returned value; in both cases `execute_tool`
returns an outcome (`.ok`) — the exception never propagates. -/
theorem execute_tool_handler_caught
    (tools : List (String × Tool)) (name : String) (t : Tool)
    (f : Json → Except String Json) (pf : List (String × Json))
    (h : registryLookup tools name = some t) (hf : t.function = some f) :
    (∀ e, f (.obj pf) = .error e →
      execute_tool tools (.str name) (.obj pf) =
        .ok { success := false, result := none, error := some e, tool_name := name }) ∧
    (∀ v, f (.obj pf) = .ok v →
      execute_tool tools (.str name) (.obj pf) =
        .ok { success := true, result := some v, error := none, tool_name := name }) := by
  constructor <;> intro x hx <;> simp [execute_tool, h, hf, hx, pyStr]

/-- A capability whose handler always raises, for the C5 witness. -/
def c5FailTool : Tool :=
  { name := "boom", description := "always raises",
    function := some (fun _ => .error "division by zero") }

/-- A capability whose handler returns normally, for the C5 witness. -/
def c5OkTool : Tool :=
  { name := "calc", description := "always succeeds",
    function := some (fun _ => .ok (.str "42")) }

/-- Registry holding the two C5 witness capabilities. -/
def c5Registry : List (String × Tool) := [("boom", c5FailTool), ("calc", c5OkTool)]

/-- C5 witness: a raising handler is converted to a failure outcome and a
returning handler to a success outcome, at concrete inputs. -/
theorem execute_tool_handler_caught_witness :
    execute_tool c5Registry (.str "boom") (.obj []) =
      .ok { success := false, result := none, error := some "division by zero",
            tool_name := "boom" } ∧
    execute_tool c5Registry (.str "calc") (.obj []) =
      .ok { success := true, result := some (.str "42"), error := none,
            tool_name := "calc" } :=
  ⟨(execute_tool_handler_caught c5Registry "boom" c5FailTool
      (fun _ => .error "division by zero") [] rfl rfl).1 "division by zero" rfl,
   (execute_tool_handler_caught c5Registry "calc" c5OkTool
      (fun _ => .ok (.str "42")) [] rfl rfl).2 (.str "42") rfl⟩

/-- C10: for every registered capability whose handler reference is absent
(`function is None`) and every argument payload, `execute_tool` succeeds
with the placeholder string naming the capability and echoing the
parameters, rather than failing. -/
theorem execute_tool_no_handler_placeholder
    (tools : List (String × Tool)) (name : String) (t : Tool) (params : Json)
    (h : registryLookup tools name = some t) (hf : t.function = none) :
    execute_tool tools (.str name) params =
      .ok { success := true,
            result := some (.str ("도구 \x27" ++ name ++ "\x27 실행됨 (파라미터: "
              ++ pyRepr params ++ ")")),
            error := none, tool_name := name } := by
  simp [execute_tool, h, hf, pyStr]

/-- A registered capability without a handler, for the C10 witness. -/
def c10Tool : Tool := { name := "stub", description := "no handler" }

/-- C10 witness: the placeholder success outcome at a concrete handlerless
capability with concrete parameters. -/
theorem execute_tool_no_handler_placeholder_witness :
    execute_tool [("stub", c10Tool)] (.str "stub") (.obj [("a", .num 1)]) =
      .ok { success := true,
            result := some (.str "도구 \x27stub\x27 실행됨 (파라미터: \x7b\x27a\x27: 1\x7d)"),
            error := none, tool_name := "stub" } :=
  execute_tool_no_handler_placeholder [("stub", c10Tool)] "stub" c10Tool
    (.obj [("a", .num 1)]) rfl rfl

/-- C3: when the model message carries a native structured `tool_calls`
list, the `/api/chat` dispatch enters the tool branch with exactly that
list, unmodified, for every value of the free-text `content` field (the
quantification over all other fields); on that path the handler never
parses embedded JSON out of the content. -/
theorem app_dispatch_structured_takes_precedence
    (fs : List (String × Json)) (calls : List Json)
    (h : lookupLast fs "tool_calls" = some (.arr calls)) :
    appChatDispatch (.obj fs) = .toolBranch calls := by
  simp [appChatDispatch, h]

/-- The structured tool-call list of the C3 witness message. -/
def c3Calls : List Json :=
  [.obj [("id", .str "call_1"),
         ("function", .obj [("name", .str "get_current_time"),
                            ("arguments", .str "\x7b\x7d")])]]

/-- C3 witness message: free text that even contains an embedded fenced
JSON invocation naming a different capability, alongside the structured
list. -/
def c3Msg : List (String × Json) :=
  [("content", .str "I will call it: ```json\n\x7b\"tool_call\":\x7b\"name\":\"other\"\x7d\x7d\n```"),
   ("tool_calls", .arr c3Calls)]

/-- C3 witness: the dispatch returns exactly the structured list despite
the embedded-JSON text in `content`. -/
theorem app_dispatch_structured_takes_precedence_witness :
    appChatDispatch (.obj c3Msg) = .toolBranch c3Calls :=
  app_dispatch_structured_takes_precedence c3Msg c3Calls rfl

/-- Stub endpoint for C2: fails with HTTP 500 exactly on requests whose
body carries a `tools` field, answers every other request successfully. -/
def c2Endpoint : Endpoint := fun req =>
  match req with
  | .chatCompletions p =>
    match p.tools with
    | some _ => .error (.statusError 500 "tools unsupported")
    | none => .ok (.obj [("choices", .arr [.obj [("message",
        .obj [("role", .str "assistant"), ("content", .str "ok")])]])])
  | .completions _ _ _ =>
    .ok (.obj [("choices", .arr [.obj [("text", .str "ok")]])])

/-- A non-empty capability catalog for C2. -/
def c2Catalog : List Json :=
  [.obj [("type", .str "function"),
         ("function", .obj [("name", .str "get_current_time"),
                            ("description", .str "time lookup"),
                            ("parameters", .obj [])])]]

/-- Gateway client for C2. -/
def c2Client : VLLMClient := { base_url := "http://stub", model := "test-model" }

/-- Transcript for C2. -/
def c2Messages : List InMessage := [⟨"user", some "hello"⟩]

/-- C2 counterexample: with a stub endpoint that returns 500 only on
requests containing a `tools` field, `chat` with a non-empty catalog does
NOT succeed via a legacy-dialect retry — it issues exactly one
chat-completions request (so no retry of any kind happens) and re-raises
the server error, contradicting the claimed fallback. -/
theorem vllm_chat_no_legacy_retry :
    (c2Client.chat c2Endpoint c2Messages (some c2Catalog) none).1
      = .error (.reraised (.statusError 500 "tools unsupported")) ∧
    (c2Client.chat c2Endpoint c2Messages (some c2Catalog) none).2
      = [.chatCompletions (chatPayloadOf c2Client c2Messages c2Catalog none)] :=
  ⟨rfl, rfl⟩

/-- C2 amended: for every non-empty capability catalog, if the endpoint
answers the chat-completions request containing the `tools` field with an
error (in particular a server 5xx), `chat` re-raises that error unchanged
after issuing exactly that one request; no legacy-dialect ("functions" /
"function_call") retry is attempted and the call fails rather than
succeeding. -/
theorem vllm_chat_tools_error_reraised
    (client : VLLMClient) (endpoint : Endpoint) (messages : List InMessage)
    (t : Json) (ts : List Json) (tc : Option Json) (e : HttpFailure)
    (h : endpoint (.chatCompletions (chatPayloadOf client messages (t :: ts) tc)) = .error e) :
    client.chat endpoint messages (some (t :: ts)) tc =
      (.error (.reraised e),
       [.chatCompletions (chatPayloadOf client messages (t :: ts) tc)]) := by
  simp [VLLMClient.chat, h]

/-- C2 amended witness: the re-raise at the concrete 500-on-tools stub. -/
theorem vllm_chat_tools_error_reraised_witness :
    c2Client.chat c2Endpoint c2Messages (some c2Catalog) none =
      (.error (.reraised (.statusError 500 "tools unsupported")),
       [.chatCompletions (chatPayloadOf c2Client c2Messages c2Catalog none)]) :=
  vllm_chat_tools_error_reraised c2Client c2Endpoint c2Messages _ _ none
    (.statusError 500 "tools unsupported") rfl

/-- Whether either stage of `_parse_tool_call` recovers an invocation
value from the content: the fenced-block stage hits, or it falls through
and the direct whole-content parse hits.  The decidable rendering of
"a JSON object with the expected invocation key is recoverable". -/
def recoverableB (content : String) : Bool :=
  match stage1 content with
  | .hit _ => true
  | .fallthrough => (stage2 content).isSome
  | .raised => false

/-- C7: for every content string from which no invocation value is
recoverable — plain prose with no JSON, malformed JSON in a fenced block,
or JSON lacking the `tool_call` key — `_parse_tool_call` returns `None`
(and only then); being total, it never raises: every internal raise is
caught at lines 231/236 and converted.  The caller then falls through to
final-answer handling (`decideCall` on `None` is the final answer). -/
theorem parse_tool_call_none_iff_unrecoverable (content : String) :
    (parse_tool_call content = none ↔ recoverableB content = false) ∧
    (recoverableB content = false → decideCall (parse_tool_call content) = .finalAnswer) := by
  unfold parse_tool_call recoverableB
  cases h : stage1 content with
  | hit v => simp
  | fallthrough => cases h2 : stage2 content <;> simp [h2, decideCall]
  | raised => simp [decideCall]

/-- C7 witness: plain prose recovers nothing; the extractor returns `None`
and the caller's dispatch is the final answer. -/
theorem parse_tool_call_none_iff_unrecoverable_witness :
    recoverableB "The answer is simply 42." = false ∧
    parse_tool_call "The answer is simply 42." = none ∧
    decideCall (parse_tool_call "The answer is simply 42.") = .finalAnswer := by
  refine ⟨by decide, ?_, ?_⟩
  · exact (parse_tool_call_none_iff_unrecoverable "The answer is simply 42.").1.mpr (by decide)
  · exact (parse_tool_call_none_iff_unrecoverable "The answer is simply 42.").2 (by decide)

/-- No message in the history is of the skipped non-core kind: everything
is System, Human (user) or AI (assistant). -/
def coreOnly (ms : List Message) : Bool :=
  ms.all (fun m => match m with | .tool _ => false | _ => true)

theorem coreOnly_append (a b : List Message) :
    coreOnly (a ++ b) = (coreOnly a && coreOnly b) := by
  simp [coreOnly, List.all_append]

/-- C8: if the gateway call of the current iteration fails with an
exception, the loop does not retry it — whatever fuel remains, it
immediately appends one final Assistant turn carrying the user-facing
apology plus the failure detail and returns that text; the exception does
not propagate, and the history (still ending in an Assistant turn, with
core roles preserved) remains usable for a subsequent user turn. -/
theorem chatLoop_gateway_error_apologizes
    (gw : Gateway) (st : AgentState) (iterations fuel : Nat) (e : String)
    (h : gw iterations (toApiMessages st.conversation_history) (toolsArg st) = .error e) :
    chatLoop gw st iterations (fuel + 1) =
      (error_message e,
       { st with conversation_history :=
           st.conversation_history ++ [.ai (error_message e)] }) ∧
    (coreOnly st.conversation_history = true →
      coreOnly (chatLoop gw st iterations (fuel + 1)).2.conversation_history = true) := by
  have h1 : chatLoop gw st iterations (fuel + 1) =
      (error_message e,
       { st with conversation_history :=
           st.conversation_history ++ [.ai (error_message e)] }) := by
    simp only [chatLoop, h]
  refine ⟨h1, fun hc => ?_⟩
  rw [h1]
  show coreOnly (st.conversation_history ++ [.ai (error_message e)]) = true
  rw [coreOnly_append, hc]
  rfl

/-- Gateway stub for the C8 witness: every call raises. -/
def c8Gw : Gateway := fun _ _ _ => .error "Connection refused"

/-- C8 witness: the apology termination at a concrete always-failing
gateway with fuel left over (no retry happens). -/
theorem chatLoop_gateway_error_apologizes_witness :
    chatLoop c8Gw (mkAgent none 10) 0 10 =
      (error_message "Connection refused",
       { mkAgent none 10 with conversation_history :=
           (mkAgent none 10).conversation_history
             ++ [.ai (error_message "Connection refused")] }) ∧
    coreOnly (chatLoop c8Gw (mkAgent none 10) 0 10).2.conversation_history = true :=
  ⟨(chatLoop_gateway_error_apologizes c8Gw (mkAgent none 10) 0 9 "Connection refused" rfl).1,
   (chatLoop_gateway_error_apologizes c8Gw (mkAgent none 10) 0 9 "Connection refused" rfl).2
     (by decide)⟩

/-- The loop preserves the core-roles property of the history: it only
ever appends AI and Human turns. -/
theorem chatLoop_coreOnly (gw : Gateway) :
    ∀ fuel st iterations, coreOnly st.conversation_history = true →
      coreOnly (chatLoop gw st iterations fuel).2.conversation_history = true := by
  intro fuel
  induction fuel with
  | zero =>
    intro st it h
    simp only [chatLoop]
    show coreOnly (st.conversation_history ++ [.ai timeout_message]) = true
    rw [coreOnly_append, h]; rfl
  | succ f ih =>
    intro st it h
    simp only [chatLoop]
    cases hgw : gw it (toApiMessages st.conversation_history) (toolsArg st) with
    | error e =>
      simp only [hgw]
      show coreOnly (st.conversation_history ++ [.ai (error_message e)]) = true
      rw [coreOnly_append, h]; rfl
    | ok c =>
      simp only [hgw]
      cases hdec : decideCall (parse_tool_call c) with
      | raised m =>
        simp only [hdec]
        show coreOnly (st.conversation_history ++ [.ai (error_message m)]) = true
        rw [coreOnly_append, h]; rfl
      | finalAnswer =>
        simp only [hdec]
        show coreOnly (st.conversation_history ++ [.ai c]) = true
        rw [coreOnly_append, h]; rfl
      | invoke n p =>
        simp only [hdec]
        cases hex : execute_tool st.tools n p with
        | error e =>
          simp only [hex]
          show coreOnly (st.conversation_history ++ [.ai (error_message e)]) = true
          rw [coreOnly_append, h]; rfl
        | ok tr =>
          simp only [hex]
          refine ih _ _ ?_
          show coreOnly (st.conversation_history
            ++ [.ai c, .human (result_message n tr)]) = true
          rw [coreOnly_append, h]; rfl

/-- Every serialized message has one of the three core roles, whatever the
history contains (the isinstance chain emits nothing else). -/
theorem toApiMessages_roles (ms : List Message) (m : ApiMessage)
    (hm : m ∈ toApiMessages ms) :
    m.role = "system" ∨ m.role = "user" ∨ m.role = "assistant" := by
  induction ms with
  | nil => simp [toApiMessages] at hm
  | cons x rest ih =>
    cases x with
    | system c =>
      rcases (by simpa [toApiMessages] using hm : m = ⟨"system", c⟩ ∨ m ∈ toApiMessages rest)
        with h | h
      · subst h; left; rfl
      · exact ih h
    | human c =>
      rcases (by simpa [toApiMessages] using hm : m = ⟨"user", c⟩ ∨ m ∈ toApiMessages rest)
        with h | h
      · subst h; right; left; rfl
      · exact ih h
    | ai c =>
      rcases (by simpa [toApiMessages] using hm : m = ⟨"assistant", c⟩ ∨ m ∈ toApiMessages rest)
        with h | h
      · subst h; right; right; rfl
      · exact ih h
    | tool c => exact ih (by simpa [toApiMessages] using hm)

/-- C9: every turn the agent ever holds is a System, User (Human) or
Assistant message — a fresh agent starts that way and `chat` preserves it,
capability outcomes being folded back as user-role Human turns — and, for
every history whatsoever, both the message list serialized to the
inference endpoint and the list returned by `get_conversation_history`
carry only the roles "system", "user" and "assistant", never "tool". -/
theorem history_core_roles :
    (∀ sp mi, coreOnly (mkAgent sp mi).conversation_history = true) ∧
    (∀ gw st u, coreOnly st.conversation_history = true →
      coreOnly (chat gw st u).2.conversation_history = true) ∧
    (∀ st m, m ∈ get_conversation_history st →
      m.role = "system" ∨ m.role = "user" ∨ m.role = "assistant") := by
  refine ⟨?_, ?_, ?_⟩
  · intro sp mi
    cases sp with
    | none => simp [mkAgent, coreOnly]
    | some s =>
      by_cases hs : s = "" <;> simp [mkAgent, hs, coreOnly]
  · intro gw st u h
    unfold chat
    refine chatLoop_coreOnly gw _ _ _ ?_
    show coreOnly (st.conversation_history ++ [.human u]) = true
    rw [coreOnly_append, h]; rfl
  · intro st m hm
    exact toApiMessages_roles _ m hm

/-- Gateway stub for the C9 witness: a plain final answer. -/
def c9Gw : Gateway := fun _ _ _ => .ok "hello"

/-- C9 witness: the invariant at a fresh agent, after a concrete chat, and
on the serialized history of the fresh agent. -/
theorem history_core_roles_witness :
    coreOnly (mkAgent none 10).conversation_history = true ∧
    coreOnly (chat c9Gw (mkAgent none 10) "hi").2.conversation_history = true ∧
    ((⟨"system", default_system_prompt⟩ : ApiMessage).role = "system"
      ∨ (⟨"system", default_system_prompt⟩ : ApiMessage).role = "user"
      ∨ (⟨"system", default_system_prompt⟩ : ApiMessage).role = "assistant") :=
  ⟨history_core_roles.1 none 10,
   history_core_roles.2.1 c9Gw (mkAgent none 10) "hi" (by decide),
   history_core_roles.2.2 (mkAgent none 10) _ (List.Mem.head _)⟩

/-- With a string capability name, `execute_tool` always returns an
outcome (the pre-`try` membership test only raises on unhashable names,
and everything inside the `try` is caught). -/
theorem execute_tool_str_returns (tools : List (String × Tool)) (n : String) (p : Json) :
    ∃ tr, execute_tool tools (.str n) p = .ok tr := by
  cases hreg : registryLookup tools n with
  | none =>
    exact ⟨{ success := false, result := none,
             error := some ("도구 \x27" ++ pyStr (Json.str n) ++ "\x27를 찾을 수 없습니다."),
             tool_name := pyStr (Json.str n) }, by simp [execute_tool, hreg]⟩
  | some t =>
    cases hf : t.function with
    | none =>
      exact ⟨{ success := true,
               result := some (.str ("도구 \x27" ++ pyStr (Json.str n) ++ "\x27 실행됨 (파라미터: "
                 ++ pyRepr p ++ ")")),
               error := none, tool_name := pyStr (Json.str n) },
             by simp [execute_tool, hreg, hf]⟩
    | some f =>
      cases p with
      | obj pf =>
        cases hfp : f (.obj pf) with
        | ok v =>
          exact ⟨{ success := true, result := some v, error := none,
                   tool_name := pyStr (Json.str n) }, by simp [execute_tool, hreg, hf, hfp]⟩
        | error e =>
          exact ⟨{ success := false, result := none, error := some e,
                   tool_name := pyStr (Json.str n) }, by simp [execute_tool, hreg, hf, hfp]⟩
      | null =>
        exact ⟨{ success := false, result := none,
                 error := some "argument after ** must be a mapping",
                 tool_name := pyStr (Json.str n) }, by simp [execute_tool, hreg, hf]⟩
      | bool b =>
        exact ⟨{ success := false, result := none,
                 error := some "argument after ** must be a mapping",
                 tool_name := pyStr (Json.str n) }, by simp [execute_tool, hreg, hf]⟩
      | num m =>
        exact ⟨{ success := false, result := none,
                 error := some "argument after ** must be a mapping",
                 tool_name := pyStr (Json.str n) }, by simp [execute_tool, hreg, hf]⟩
      | str s =>
        exact ⟨{ success := false, result := none,
                 error := some "argument after ** must be a mapping",
                 tool_name := pyStr (Json.str n) }, by simp [execute_tool, hreg, hf]⟩
      | arr xs =>
        exact ⟨{ success := false, result := none,
                 error := some "argument after ** must be a mapping",
                 tool_name := pyStr (Json.str n) }, by simp [execute_tool, hreg, hf]⟩

/-- Under a gateway whose every reply carries an extractable invocation
with a string-named capability, the loop runs its full fuel: each
iteration appends exactly two turns (the Assistant turn and the folded
result turn) and the run ends with the fixed timeout reply. -/
theorem chatLoop_always_invoke (gw : Gateway)
    (H : ∀ i ms ts, ∃ c n p, gw i ms ts = .ok c ∧
        decideCall (parse_tool_call c) = .invoke (.str n) p) :
    ∀ fuel st iterations, ∃ mid,
      chatLoop gw st iterations fuel =
        (timeout_message,
         { st with conversation_history :=
             st.conversation_history ++ mid ++ [.ai timeout_message] }) ∧
      mid.length = 2 * fuel := by
  intro fuel
  induction fuel with
  | zero =>
    intro st it
    exact ⟨[], by simp [chatLoop], rfl⟩
  | succ f ih =>
    intro st it
    obtain ⟨c, n, p, hgw, hdec⟩ := H it (toApiMessages st.conversation_history) (toolsArg st)
    obtain ⟨tr, hex⟩ := execute_tool_str_returns st.tools n p
    obtain ⟨mid, hloop, hlen⟩ := ih
      { st with conversation_history :=
          st.conversation_history ++ [.ai c, .human (result_message (.str n) tr)] } (it + 1)
    refine ⟨[.ai c, .human (result_message (.str n) tr)] ++ mid, ?_, ?_⟩
    · show chatLoop gw st it (f + 1) = _
      simp only [chatLoop, hgw, hdec, hex]
      rw [hloop]
      simp [List.append_assoc]
    · simp only [List.length_append, hlen, List.length_cons, List.length_nil]
      omega

/-- C1: for every starting conversation history and every gateway that on
each call returns a turn from which a capability invocation (string-named
capability plus arguments) is extracted, `chat` performs exactly the
configured maximum number of iterations — two turns appended per
iteration — then terminates, appending the fixed "too many steps"
Assistant turn and returning its text; it never loops indefinitely (the
loop is fuel-bounded by `max_iterations`, whose constructor default is
10, as the last conjunct records). -/
theorem chat_always_invoke_hits_iteration_bound
    (gw : Gateway) (st : AgentState) (u : String)
    (H : ∀ i ms ts, ∃ c n p, gw i ms ts = .ok c ∧
        decideCall (parse_tool_call c) = .invoke (.str n) p) :
    (∃ mid,
      chat gw st u =
        (timeout_message,
         { st with conversation_history :=
             st.conversation_history ++ [.human u] ++ mid ++ [.ai timeout_message] }) ∧
      mid.length = 2 * st.max_iterations) ∧
    (mkAgent none).max_iterations = 10 := by
  refine ⟨?_, rfl⟩
  obtain ⟨mid, hl, hlen⟩ := chatLoop_always_invoke gw H st.max_iterations
    { st with conversation_history := st.conversation_history ++ [.human u] } 0
  refine ⟨mid, ?_, hlen⟩
  unfold chat
  rw [hl]

/-- The reply of the C1 witness gateway: a fenced JSON invocation of the
capability "x" with empty parameters. -/
def c1Content : String :=
  "Sure!\n```json\n\x7b\"tool_call\":\x7b\"name\":\"x\",\"parameters\":\x7b\x7d\x7d\x7d\n```"

/-- Gateway stub for the C1 witness: every call returns `c1Content`. -/
def c1Gw : Gateway := fun _ _ _ => .ok c1Content

/-- C1 witness: the concrete always-invoking stub drives a 2-iteration
agent into the fixed timeout reply. -/
theorem chat_always_invoke_hits_iteration_bound_witness :
    (chat c1Gw (mkAgent none 2) "hi").1 = timeout_message := by
  obtain ⟨⟨mid, hl, hlen⟩, _⟩ :=
    chat_always_invoke_hits_iteration_bound c1Gw (mkAgent none 2) "hi"
      (fun i ms ts => ⟨c1Content, "x", .obj [], rfl, rfl⟩)
  rw [hl]

/-- `splitFirst` splits exactly at the marker junction when the haystack
prefix contains no character equal to the marker's first character (so no
earlier occurrence can start). -/
theorem splitFirst_junction (c : Char) (mtail : List Char) :
    ∀ pre rest : List Char, (∀ x ∈ pre, x ≠ c) →
      splitFirst (pre ++ ((c :: mtail) ++ rest)) (c :: mtail) = some (pre, rest) := by
  intro pre
  induction pre with
  | nil =>
    intro rest _
    simp only [List.nil_append]
    unfold splitFirst
    have hp : (c :: mtail).isPrefixOf ((c :: mtail) ++ rest) = true := by
      rw [List.isPrefixOf_iff_prefix]
      exact List.prefix_append _ _
    simp [hp, List.drop_left]
  | cons a pre ih =>
    intro rest hpre
    have ha : a ≠ c := hpre a (by simp)
    have hrec := ih rest (fun x hx => hpre x (by simp [hx]))
    have hcond : ¬ ((c :: mtail).isPrefixOf ((a :: pre) ++ ((c :: mtail) ++ rest)) = true) := by
      rw [List.isPrefixOf_iff_prefix, List.cons_append]
      intro hpf
      exact ha ((List.cons_prefix_cons.mp hpf).1.symm)
    unfold splitFirst
    rw [if_neg hcond]
    simp only [List.cons_append] at hrec ⊢
    rw [hrec]
    rfl

/-- The fenced invocation block body of C6 (newline-padded, as a model
would emit between the markers). -/
def c6Body : String :=
  "\n\x7b\"tool_call\":\x7b\"name\":\"x\",\"parameters\":\x7b\x7d\x7d\x7d\n"

/-- C6: for every turn content carrying the fenced JSON code block
`{"tool_call":{"name":"x","parameters":{}}}` as its first fenced region
(nothing before it contains a backtick; arbitrary text may follow), the
extractor returns exactly one invocation descriptor, named "x" with an
empty parameter mapping, and the loop dispatch reads it as that single
invocation. -/
theorem parse_tool_call_fenced_invocation (pre post : String)
    (hpre : ∀ x ∈ pre.data, x ≠ Char.ofNat 96) :
    parse_tool_call (pre ++ "```json" ++ c6Body ++ "```" ++ post)
        = some (.obj [("name", .str "x"), ("parameters", .obj [])]) ∧
    decideCall (parse_tool_call (pre ++ "```json" ++ c6Body ++ "```" ++ post))
        = .invoke (.str "x") (.obj []) := by
  have hm1 : "```json".data = Char.ofNat 96 :: "``json".data := by decide
  have hm2 : "```".data = Char.ofNat 96 :: "``".data := by decide
  have hbody : ∀ x ∈ c6Body.data, x ≠ Char.ofNat 96 := by decide
  have hd : (pre ++ "```json" ++ c6Body ++ "```" ++ post).data
      = pre.data ++ ("```json".data ++ (c6Body.data ++ ("```".data ++ post.data))) := by
    simp [String.data_append]
  have h1 : splitFirst (pre ++ "```json" ++ c6Body ++ "```" ++ post).data "```json".data
      = some (pre.data, c6Body.data ++ ("```".data ++ post.data)) := by
    rw [hd, hm1]
    exact splitFirst_junction _ _ _ _ hpre
  have h2 : splitFirst (c6Body.data ++ ("```".data ++ post.data)) "```".data
      = some (c6Body.data, post.data) := by
    rw [hm2]
    exact splitFirst_junction _ _ _ _ hbody
  have hfb : fencedBody (pre ++ "```json" ++ c6Body ++ "```" ++ post)
      = some (pyStrip (String.mk c6Body.data)) := by
    unfold fencedBody
    rw [h1]
    show (match splitFirst (c6Body.data ++ ("```".data ++ post.data)) "```".data with
      | none => none
      | some (body, _) => some (pyStrip (String.mk body)))
        = some (pyStrip (String.mk c6Body.data))
    rw [h2]
  have hs1 : stage1 (pre ++ "```json" ++ c6Body ++ "```" ++ post)
      = .hit (.obj [("name", .str "x"), ("parameters", .obj [])]) := by
    unfold stage1
    rw [hfb]
    rfl
  have hp : parse_tool_call (pre ++ "```json" ++ c6Body ++ "```" ++ post)
      = some (.obj [("name", .str "x"), ("parameters", .obj [])]) := by
    unfold parse_tool_call
    rw [hs1]
  exact ⟨hp, by rw [hp]; rfl⟩

/-- C6 witness: the extraction at a concrete content with prose around the
fenced block. -/
theorem parse_tool_call_fenced_invocation_witness :
    parse_tool_call ("Sure! " ++ "```json" ++ c6Body ++ "```" ++ " Done.")
        = some (.obj [("name", .str "x"), ("parameters", .obj [])]) ∧
    decideCall (parse_tool_call ("Sure! " ++ "```json" ++ c6Body ++ "```" ++ " Done."))
        = .invoke (.str "x") (.obj []) :=
  parse_tool_call_fenced_invocation "Sure! " " Done." (by decide)

end Spec2Proof
